import Mathlib

/-!
Shallow embedding of `hydrodata/hydrodata.py` (the `Station` class): the
argument dispatch of `Station.__init__` (lines 76-85), the directory-creation
step (lines 91-98), `Station.get_coords` (lines 113-129), `Station.get_id`
(lines 131-181) and `Station.get_watershed` (lines 183-218).  Numeric fields
are modelled as rationals, geometries on the watershed side as opaque byte
contents (`String`), and each remote interaction of `get_watershed` is
recorded in an explicit call trace.
-/

namespace Hydrodata

/-- Failure kinds observable from `Station` construction.
`invalidArgument` models the explicit `RuntimeError` raised at
hydrodata.py:83 when neither or both of `station_id` and `coords` are given
(the spec names this `InvalidArgumentError`).  `persistenceError` models the
exception propagated from `geom.to_file` on the cache-miss write (the spec's
`PersistenceError`).  `libraryError` models an unhandled exception escaping
from the pandas / shapely calls of `get_id` (e.g. on an empty candidate set:
`AttributeError` on a column of an empty frame, or `ValueError` from
`nearest_points` on an empty union).  `nameError` models a Python `NameError`
raised when an undefined variable is evaluated.  `noStationFound` is the
spec's `NoStationFoundError`; no code path of the source raises it. -/
inductive Err
  | invalidArgument
  | noStationFound
  | persistenceError
  | libraryError
  | nameError
  deriving DecidableEq, Repr

/-- Which resolution direction `Station.__init__` takes (hydrodata.py:76-85):
coordinates given leads to `get_id`, a station id given leads to
`get_coords`. -/
inductive ResolvePath
  | byCoordinate (c : ℚ × ℚ)
  | byId (i : String)
  deriving DecidableEq, Repr

/-- The argument dispatch of `Station.__init__` (hydrodata.py:76-85): exactly
one of `station_id` / `coords` must be supplied, otherwise the constructor
raises (`RuntimeError`, line 83). -/
def initDispatch : Option String → Option (ℚ × ℚ) → Except Err ResolvePath
  | none, some c => Except.ok (ResolvePath.byCoordinate c)
  | some i, none => Except.ok (ResolvePath.byId i)
  | _, _ => Except.error Err.invalidArgument

/-- The feet-to-meters conversion applied to `alt_va`
(hydrodata.py:127 and 177-179): multiplication by the literal `0.3048`. -/
def ftToMeter (x : ℚ) : ℚ := x * (3048 / 10000)

/-- The station fields `Station.get_coords` / `Station.get_id` assign on the
instance: `station_id`, `coords` (longitude, latitude), `altitude` (meters),
`datum`, `name`. -/
structure StationFields where
  station_id : String
  coords : ℚ × ℚ
  altitude : ℚ
  datum : String
  name : String
  deriving DecidableEq, Repr

/-- The row the site service returns for a station-id lookup, restricted to
the fields `Station.get_coords` consumes (hydrodata.py:124-129). -/
structure IdRecord where
  dec_long_va : ℚ
  dec_lat_va : ℚ
  alt_va : ℚ
  alt_datum_cd : String
  station_nm : String
  deriving DecidableEq, Repr

/-- `Station.get_coords` (hydrodata.py:113-129): fields are copied from the
response row, the altitude is converted from feet to meters.  No sign check
is performed on `alt_va`. -/
def get_coords (station_id : String) (rec : IdRecord) : StationFields :=
  { station_id := station_id
    coords := (rec.dec_long_va, rec.dec_lat_va)
    altitude := ftToMeter rec.alt_va
    datum := rec.alt_datum_cd
    name := rec.station_nm }

/-- Raw value of the `alt_va` column in one bounding-box response row:
absent (becomes NaN in `DataFrame.from_dict`, so `dropna` removes the row),
the empty string (removed by the `df.alt_va == ""` drop, hydrodata.py:158),
or a numeric altitude in feet. -/
inductive RawAlt
  | missing
  | empty
  | value (feet : ℚ)
  deriving DecidableEq, Repr

/-- One raw bounding-box response row as consumed by `Station.get_id`,
restricted to the consumed columns.  `none` models a column absent from the
row (NaN after `DataFrame.from_dict`, so `dropna` removes the row). -/
structure RawSite where
  site_no : String
  dec_lat_va : Option ℚ
  dec_long_va : Option ℚ
  alt_va : RawAlt
  alt_datum_cd : Option String
  station_nm : Option String
  deriving DecidableEq, Repr

/-- The row filter of `Station.get_id` (hydrodata.py:157-158): `dropna`
removes rows with a missing field, then rows whose `alt_va` is the empty
string are dropped. -/
def validSite (r : RawSite) : Bool :=
  r.dec_lat_va.isSome && r.dec_long_va.isSome && r.alt_datum_cd.isSome &&
    r.station_nm.isSome &&
    (match r.alt_va with
     | RawAlt.value _ => true
     | _ => false)

/-- Longitude of a (valid) row after `astype("float")`. -/
def longOf (r : RawSite) : ℚ := r.dec_long_va.getD 0

/-- Latitude of a (valid) row after `astype("float")`. -/
def latOf (r : RawSite) : ℚ := r.dec_lat_va.getD 0

/-- Altitude (feet) of a (valid) row after `astype("float")`. -/
def altOf (r : RawSite) : ℚ :=
  match r.alt_va with
  | RawAlt.value q => q
  | _ => 0

/-- Datum code of a (valid) row. -/
def datumOf (r : RawSite) : String := r.alt_datum_cd.getD ""

/-- Station name of a (valid) row. -/
def nameOf (r : RawSite) : String := r.station_nm.getD ""

/-- `geom.Point(row.dec_long_va, row.dec_lat_va)` (hydrodata.py:166). -/
def pointOf (r : RawSite) : ℚ × ℚ := (longOf r, latOf r)

/-- Squared planar distance; `nearest_points` minimizes planar distance and
squaring preserves the comparison, keeping everything in ℚ. -/
def sqDist (p q : ℚ × ℚ) : ℚ := (p.1 - q.1) ^ 2 + (p.2 - q.2) ^ 2

/-- Python `dict` insertion (hydrodata.py:164-169): an existing key keeps its
position but its value is overwritten; a new key is appended. -/
def dictInsert : List (String × (ℚ × ℚ)) → String → (ℚ × ℚ) →
    List (String × (ℚ × ℚ))
  | [], k, v => [(k, v)]
  | (k', v') :: m, k, v =>
      if k' = k then (k', v) :: m else (k', v') :: dictInsert m k v

/-- The `pts` dict of `Station.get_id` (hydrodata.py:164-169): one point per
`site_no` key, built row by row over the filtered frame, later rows with the
same `site_no` overriding the stored point. -/
def ptsDict (df : List RawSite) : List (String × (ℚ × ℚ)) :=
  df.foldl (fun m r => dictInsert m r.site_no (pointOf r)) []

/-- One comparison step of the nearest-member scan: a dict entry replaces
the incumbent point only when strictly closer to the query. -/
def keepNearerPoint (query : ℚ × ℚ) (best : ℚ × ℚ) (kv : String × (ℚ × ℚ)) :
    ℚ × ℚ :=
  if sqDist query kv.2 < sqDist query best then kv.2 else best

/-- `ops.nearest_points(point, gdf.unary_union)[1]` (hydrodata.py:171): the
member of the candidate multipoint closest to the query, the first-found one
kept on exact ties (only a strictly smaller distance replaces the incumbent);
`none` when the candidate set is empty (the library raises there). -/
def nearestPoint (query : ℚ × ℚ) : List (String × (ℚ × ℚ)) → Option (ℚ × ℚ)
  | [] => none
  | (_, p) :: m => some (m.foldl (keepNearerPoint query) p)

/-- `gdf[gdf.geom_equals(nearest)].index[0]` (hydrodata.py:172): the first key
of the dict whose point coincides with the nearest point. -/
def firstKeyAt (m : List (String × (ℚ × ℚ))) (p : ℚ × ℚ) : Option String :=
  (m.find? (fun kv => decide (kv.2 = p))).map Prod.fst

/-- The station fields extracted from the selected row
(hydrodata.py:175-181). -/
def mkFields (r : RawSite) : StationFields :=
  { station_id := r.site_no
    coords := (longOf r, latOf r)
    altitude := ftToMeter (altOf r)
    datum := datumOf r
    name := nameOf r }

/-- `Station.get_id` (hydrodata.py:131-181) over the raw rows of the
bounding-box response: filter out partial rows, build the `site_no`-keyed
point dict, find the nearest candidate point, select the first dict key
coincident with it, and return the first filtered row carrying that
`site_no`.  On an empty candidate set the pandas / shapely calls raise an
unhandled exception (`libraryError`); the source defines no dedicated
no-station-found error. -/
def get_id (query : ℚ × ℚ) (sites : List RawSite) : Except Err StationFields :=
  let df := sites.filter validSite
  let pts := ptsDict df
  match nearestPoint query pts with
  | none => Except.error Err.libraryError
  | some nr =>
    match firstKeyAt pts nr with
    | none => Except.error Err.libraryError
    | some idx =>
      match df.find? (fun r => decide (r.site_no = idx)) with
      | none => Except.error Err.libraryError
      | some r => Except.ok (mkFields r)

/-- Local names bound in `Station.__init__` by the time the
directory-creation `except OSError` handler runs (hydrodata.py:91-98). -/
def initLocalNames : List String :=
  ["self", "start", "end", "station_id", "coords", "data_dir", "rain_snow",
   "tcr", "phenology", "width"]

/-- Module-level names of `hydrodata.py` (the constant, the imports and the
class). -/
def moduleGlobalNames : List String :=
  ["MARGINE", "Path", "pd", "np", "gpd", "njit", "prange", "utils", "xr",
   "json", "os", "HTTPError", "ConnectionError", "Timeout",
   "RequestException", "Station"]

/-- The variable names the `except OSError` handler's print expression
evaluates (hydrodata.py:95-98): `self` and `MARGINE` in the first f-string,
`d` in the second. -/
def handlerNames : List String := ["self", "MARGINE", "d"]

/-- Whether a name is bound in the scope seen by the handler. -/
def definedInHandlerScope (n : String) : Bool :=
  initLocalNames.contains n || moduleGlobalNames.contains n

/-- Evaluating the handler's print expression: Python raises `NameError` as
soon as one referenced name is unbound. -/
def mkdirHandler : Except Err Unit :=
  if handlerNames.all definedInHandlerScope then Except.ok ()
  else Except.error Err.nameError

/-- The directory-creation step of `Station.__init__` (hydrodata.py:91-98):
nothing happens when the directory exists; otherwise `os.makedirs` runs and,
if it raises `OSError`, the handler's print expression is evaluated. -/
def dirCreationStep (dirExists mkdirOk : Bool) : Except Err Unit :=
  if dirExists then Except.ok ()
  else if mkdirOk then Except.ok ()
  else mkdirHandler

/-- The remote interactions `Station.get_watershed` can perform, in source
order: constructing `NLDI(station_id)` (the comid lookup, line 189), the
`upstreamTributaries` trace (191), the `upstreamMain` trace (194), the
per-comid flowline fetch (197-199), and the basin-geometry download
(line 211). -/
inductive RemoteCall
  | nldiInit
  | traceTributaries
  | traceMain
  | fetchCatchments
  | fetchBasin
  deriving DecidableEq, Repr

/-- What the NLDI service would answer for one station, plus whether the
geometry-file write (`geom.to_file`, hydrodata.py:213) succeeds. -/
structure NldiEnv where
  comid : String
  tributaries : List String
  mainChannel : List String
  areas : String → ℚ
  basin : String
  writeOk : Bool

/-- The fields `Station.get_watershed` assigns on the instance. -/
structure WatershedResult where
  comid : String
  tributaries : List String
  main_channel : List String
  drainage_area : ℚ
  geometry : String
  deriving DecidableEq, Repr

/-- Modelled from the spec: `NLDI.get_nhdplus_byid` lives in
`hydrodata/datasets.py`, which is not under `src/`; per the spec's
`DrainageNetworkClient.catchments(reach_ids)` it returns a mapping
`reach_id -> area_km2`, so each distinct comid contributes one row with its
sub-catchment area. -/
def get_nhdplus_byid (areas : String → ℚ) (comids : List String) :
    List (String × ℚ) :=
  comids.dedup.map (fun i => (i, areas i))

/-- `Station.get_watershed` (hydrodata.py:183-218), with the per-station
geometry file as explicit state (`Option String`: the cached bytes, if the
file exists) and the remote calls recorded in order.  The comid lookup, both
traces and the flowline fetch (with `drainage_area` summed from it) always
run first; only then is the cache consulted.  A hit reads the file and
returns; a miss downloads the basin, writes the file (failure propagates as
`persistenceError`) and returns. -/
def get_watershed (env : NldiEnv) (cache : Option String) :
    Except Err WatershedResult × Option String × List RemoteCall :=
  let calls := [RemoteCall.nldiInit, RemoteCall.traceTributaries,
    RemoteCall.traceMain, RemoteCall.fetchCatchments]
  let area := ((get_nhdplus_byid env.areas env.tributaries).map Prod.snd).sum
  let result : String → WatershedResult := fun g =>
    { comid := env.comid
      tributaries := env.tributaries
      main_channel := env.mainChannel
      drainage_area := area
      geometry := g }
  match cache with
  | some g => (Except.ok (result g), some g, calls)
  | none =>
      if env.writeOk then
        (Except.ok (result env.basin), some env.basin,
          calls ++ [RemoteCall.fetchBasin])
      else
        (Except.error Err.persistenceError, none,
          calls ++ [RemoteCall.fetchBasin])

/-- One comparison step of the reference candidate scan: a candidate row
replaces the incumbent only when its point is strictly closer to the
query. -/
def keepNearer (query : ℚ × ℚ) (best s : RawSite) : RawSite :=
  if sqDist query (pointOf s) < sqDist query (pointOf best) then s else best

/-- Reference selection written from the spec sentence, for comparison with
`get_id`: scan the valid candidates in response order and keep the first one
achieving the minimal planar distance to the query. -/
def selectNearest (query : ℚ × ℚ) : List RawSite → Option RawSite
  | [] => none
  | r :: l => some (l.foldl (keepNearer query) r)

/-- Lexicographic comparison of identifier characters (by code point), the
order the spec's tie-break clause refers to. -/
def lexLt : List Char → List Char → Bool
  | [], [] => false
  | [], _ :: _ => true
  | _ :: _, [] => false
  | a :: as, b :: bs =>
      if a.val < b.val then true
      else if b.val < a.val then false
      else lexLt as bs

/-- Whether the id `a` sorts strictly before the id `b` lexicographically. -/
def idLexLt (a b : String) : Bool := lexLt a.data b.data

/-- A valid candidate row with id `"A"` located at the origin. -/
def siteA0 : RawSite :=
  { site_no := "A"
    dec_lat_va := some 0
    dec_long_va := some 0
    alt_va := RawAlt.value 7
    alt_datum_cd := some "NAVD88"
    station_nm := some "station a" }

/-- A valid candidate row with id `"B"`, coincident with `siteA0`. -/
def siteB0 : RawSite :=
  { site_no := "B"
    dec_lat_va := some 0
    dec_long_va := some 0
    alt_va := RawAlt.value 9
    alt_datum_cd := some "NAVD88"
    station_nm := some "station b" }

/-- A partial row: its latitude column is absent, so `dropna` removes it. -/
def badSite0 : RawSite :=
  { site_no := "S"
    dec_lat_va := none
    dec_long_va := some 3
    alt_va := RawAlt.empty
    alt_datum_cd := some "NGVD29"
    station_nm := some "partial row" }

/-- A valid candidate at distance sqrt 2 from the origin, listed after the
farther `siteFar0` in the response. -/
def siteNear0 : RawSite :=
  { site_no := "N"
    dec_lat_va := some 1
    dec_long_va := some 1
    alt_va := RawAlt.value 12
    alt_datum_cd := some "NAVD88"
    station_nm := some "near station" }

/-- A valid candidate at distance sqrt 50 from the origin. -/
def siteFar0 : RawSite :=
  { site_no := "F"
    dec_lat_va := some 5
    dec_long_va := some 5
    alt_va := RawAlt.value 31
    alt_datum_cd := some "NGVD29"
    station_nm := some "far station" }

/-- An id-lookup row whose `alt_va` is negative (a station below the datum). -/
def recNeg : IdRecord :=
  { dec_long_va := -116
    dec_lat_va := 33
    alt_va := -100
    alt_datum_cd := "NGVD29"
    station_nm := "station below the datum" }

/-- An id-lookup row whose `alt_va` is the positive value 100 feet. -/
def recPos : IdRecord :=
  { dec_long_va := -75
    dec_lat_va := 40
    alt_va := 100
    alt_datum_cd := "NAVD88"
    station_nm := "frankford creek" }

/-- A concrete NLDI answer whose geometry-file write succeeds. -/
def envW : NldiEnv :=
  { comid := "4781309"
    tributaries := ["a", "b"]
    mainChannel := ["a"]
    areas := fun _ => 1
    basin := "polygon bytes"
    writeOk := true }

/-- The same NLDI answer, but the geometry-file write fails. -/
def envF : NldiEnv :=
  { comid := "4781309"
    tributaries := ["a", "b"]
    mainChannel := ["a"]
    areas := fun _ => 1
    basin := "polygon bytes"
    writeOk := false }

/-- The watershed fields a cache-miss resolution against `envW` produces. -/
def resW : WatershedResult :=
  { comid := "4781309"
    tributaries := ["a", "b"]
    main_channel := ["a"]
    drainage_area := 2
    geometry := "polygon bytes" }

/-- The full call trace of a cache-miss resolution. -/
def fullCalls : List RemoteCall :=
  [RemoteCall.nldiInit, RemoteCall.traceTributaries, RemoteCall.traceMain,
    RemoteCall.fetchCatchments, RemoteCall.fetchBasin]

/-- Helper: an `Except.ok` answer of `get_id` is the field record of some row
that survived the filter. -/
theorem get_id_ok_mem (query : ℚ × ℚ) (sites : List RawSite)
    (f : StationFields) (h : get_id query sites = Except.ok f) :
    ∃ r ∈ sites.filter validSite, f = mkFields r := by
  simp only [get_id] at h
  split at h
  · exact absurd h (by simp)
  · split at h
    · exact absurd h (by simp)
    · split at h
      · exact absurd h (by simp)
      · rename_i r hfind
        refine ⟨r, List.mem_of_find?_eq_some hfind, ?_⟩
        cases h
        rfl

/-- Helper: inserting a key not present in the dict appends the entry. -/
theorem dictInsert_fresh (m : List (String × (ℚ × ℚ))) (k : String) (v : ℚ × ℚ)
    (hk : ∀ kv ∈ m, kv.1 ≠ k) : dictInsert m k v = m ++ [(k, v)] := by
  induction m with
  | nil => rfl
  | cons kv rest ih =>
      obtain ⟨k', v'⟩ := kv
      have hne : k' ≠ k := hk (k', v') (by simp)
      simp [dictInsert, hne, ih (fun x hx => hk x (by simp [hx]))]

/-- Helper: building the dict over rows with pairwise distinct `site_no`
keys just pairs each row with its point, in row order. -/
theorem ptsDict_aux (df : List RawSite) :
    ∀ acc : List (String × (ℚ × ℚ)),
      ((acc.map Prod.fst) ++ df.map RawSite.site_no).Nodup →
      df.foldl (fun m r => dictInsert m r.site_no (pointOf r)) acc =
        acc ++ df.map (fun r => (r.site_no, pointOf r)) := by
  induction df with
  | nil => intro acc h; simp
  | cons r rest ih =>
      intro acc h
      have h' : ((acc.map Prod.fst) ++
          (r.site_no :: rest.map RawSite.site_no)).Nodup := by
        simpa using h
      have hdisj : (acc.map Prod.fst).Disjoint
          (r.site_no :: rest.map RawSite.site_no) :=
        (List.nodup_append.1 h').2.2
      have hfresh : ∀ kv ∈ acc, kv.1 ≠ r.site_no := by
        intro kv hkv heq
        exact hdisj (List.mem_map_of_mem Prod.fst hkv) (by simp [heq])
      rw [List.foldl_cons, dictInsert_fresh acc r.site_no (pointOf r) hfresh,
        ih (acc ++ [(r.site_no, pointOf r)])
          (by simpa [List.append_assoc] using h')]
      simp

/-- Helper: over distinct ids the dict is the row list paired with points. -/
theorem ptsDict_nodup (df : List RawSite)
    (hnd : (df.map RawSite.site_no).Nodup) :
    ptsDict df = df.map (fun r => (r.site_no, pointOf r)) := by
  simpa [ptsDict] using ptsDict_aux df [] (by simpa using hnd)

/-- Helper: the point-level scan over the dict entries computes the point of
the row-level scan's answer. -/
theorem foldl_point_eq (query : ℚ × ℚ) (l : List RawSite) :
    ∀ b : RawSite,
      (l.map (fun r => (r.site_no, pointOf r))).foldl (keepNearerPoint query)
          (pointOf b) =
        pointOf (l.foldl (keepNearer query) b) := by
  induction l with
  | nil => intro b; rfl
  | cons s t ih =>
      intro b
      rw [List.map_cons, List.foldl_cons, List.foldl_cons]
      have h1 : keepNearerPoint query (pointOf b) (s.site_no, pointOf s) =
          pointOf (keepNearer query b s) := by
        simp only [keepNearerPoint, keepNearer]
        split <;> rfl
      rw [h1, ih]

/-- Helper: over distinct ids, the nearest dict point is the point of the
reference scan's answer. -/
theorem nearestPoint_ptsDict (query : ℚ × ℚ) (df : List RawSite)
    (hnd : (df.map RawSite.site_no).Nodup) :
    nearestPoint query (ptsDict df) = (selectNearest query df).map pointOf := by
  rw [ptsDict_nodup df hnd]
  cases df with
  | nil => rfl
  | cons r l =>
      rw [List.map_cons]
      simp only [nearestPoint, selectNearest, Option.map_some']
      rw [foldl_point_eq query l r]

/-- Helper: the scan keeps the first row attaining the minimum: the list
splits around the answer, everything before it is strictly farther, and
nothing anywhere is closer. -/
theorem foldl_min_split (query : ℚ × ℚ) (l : List RawSite) :
    ∀ b : RawSite,
      ∃ pre post,
        b :: l = pre ++ (l.foldl (keepNearer query) b) :: post ∧
        (∀ s ∈ pre,
          sqDist query (pointOf (l.foldl (keepNearer query) b)) <
            sqDist query (pointOf s)) ∧
        (∀ s ∈ b :: l,
          sqDist query (pointOf (l.foldl (keepNearer query) b)) ≤
            sqDist query (pointOf s)) := by
  induction l with
  | nil =>
      intro b
      refine ⟨[], [], rfl, by simp, ?_⟩
      intro s hs
      simp only [List.mem_singleton] at hs
      subst hs
      exact le_refl _
  | cons s t ih =>
      intro b
      rw [List.foldl_cons]
      by_cases hlt : sqDist query (pointOf s) < sqDist query (pointOf b)
      · have hstep : keepNearer query b s = s := by simp [keepNearer, hlt]
        rw [hstep]
        obtain ⟨pre, post, hsplit, hpre, hmin⟩ := ih s
        refine ⟨b :: pre, post, ?_, ?_, ?_⟩
        · rw [List.cons_append, ← hsplit]
        · intro x hx
          rcases List.mem_cons.1 hx with hxb | hxp
          · subst hxb
            exact lt_of_le_of_lt (hmin s (by simp)) hlt
          · exact hpre x hxp
        · intro x hx
          rcases List.mem_cons.1 hx with hxb | hxt
          · subst hxb
            exact (lt_of_le_of_lt (hmin s (by simp)) hlt).le
          · exact hmin x hxt
      · have hstep : keepNearer query b s = b := by simp [keepNearer, hlt]
        rw [hstep]
        obtain ⟨pre, post, hsplit, hpre, hmin⟩ := ih b
        have hbs : sqDist query (pointOf b) ≤ sqDist query (pointOf s) :=
          le_of_not_lt hlt
        cases pre with
        | nil =>
            simp only [List.nil_append] at hsplit
            injection hsplit with h1 h2
            refine ⟨[], s :: t, ?_, by simp, ?_⟩
            · rw [List.nil_append, ← h1]
            · intro x hx
              rw [← h1]
              rcases List.mem_cons.1 hx with hxb | hxst
              · subst hxb; exact le_refl _
              · rcases List.mem_cons.1 hxst with hxs | hxt
                · subst hxs; exact hbs
                · have h4 := hmin x (by simp [hxt])
                  rw [← h1] at h4
                  exact h4
        | cons p pre' =>
            rw [List.cons_append] at hsplit
            injection hsplit with h1 h2
            have hresb : sqDist query (pointOf (t.foldl (keepNearer query) b)) <
                sqDist query (pointOf b) := by
              have h3 := hpre p (by simp)
              rw [← h1] at h3
              exact h3
            refine ⟨b :: s :: pre', post, ?_, ?_, ?_⟩
            · rw [List.cons_append, List.cons_append, ← h2]
            · intro x hx
              rcases List.mem_cons.1 hx with hxb | hx2
              · subst hxb; exact hresb
              · rcases List.mem_cons.1 hx2 with hxs | hxp
                · subst hxs; exact lt_of_lt_of_le hresb hbs
                · exact hpre x (by simp [hxp])
            · intro x hx
              rcases List.mem_cons.1 hx with hxb | hx2
              · subst hxb; exact hresb.le
              · rcases List.mem_cons.1 hx2 with hxs | hxt
                · subst hxs; exact (lt_of_lt_of_le hresb hbs).le
                · exact hmin x (by simp [hxt])

/-- Helper: `selectNearest`'s answer splits its input with everything before
the answer strictly farther and nothing closer anywhere. -/
theorem selectNearest_split (query : ℚ × ℚ) (l : List RawSite) (r : RawSite)
    (h : selectNearest query l = some r) :
    ∃ pre post, l = pre ++ r :: post ∧
      (∀ s ∈ pre, sqDist query (pointOf r) < sqDist query (pointOf s)) ∧
      (∀ s ∈ l, sqDist query (pointOf r) ≤ sqDist query (pointOf s)) := by
  cases l with
  | nil => exact absurd h (by simp [selectNearest])
  | cons b t =>
      simp only [selectNearest, Option.some.injEq] at h
      obtain ⟨pre, post, hsplit, hpre, hmin⟩ := foldl_min_split query t b
      rw [h] at hsplit hpre hmin
      exact ⟨pre, post, hsplit, hpre, hmin⟩

/-- Helper: rows strictly farther than `r` cannot be coincident with `r`'s
point, so the first dict key at `r`'s point is `r`'s id. -/
theorem firstKeyAt_of_split (query : ℚ × ℚ) (pre post : List RawSite)
    (r : RawSite)
    (hpre : ∀ s ∈ pre, sqDist query (pointOf r) < sqDist query (pointOf s)) :
    firstKeyAt ((pre ++ r :: post).map (fun s => (s.site_no, pointOf s)))
      (pointOf r) = some r.site_no := by
  rw [List.map_append, List.map_cons]
  unfold firstKeyAt
  rw [List.find?_append]
  have hnone : (pre.map (fun s => (s.site_no, pointOf s))).find?
      (fun kv => decide (kv.2 = pointOf r)) = none := by
    rw [List.find?_eq_none]
    intro kv hkv
    simp only [List.mem_map] at hkv
    obtain ⟨s, hs, rfl⟩ := hkv
    simp only [decide_eq_true_eq]
    intro heq
    have h2 := hpre s hs
    rw [heq] at h2
    exact lt_irrefl _ h2
  rw [hnone, Option.none_or, List.find?_cons_of_pos _ (by simp)]
  rfl

/-- Helper: with distinct ids, looking the answer's id back up in the
filtered frame returns the answer's row. -/
theorem find_site_of_split (pre post : List RawSite) (r : RawSite)
    (hnd : ((pre ++ r :: post).map RawSite.site_no).Nodup) :
    (pre ++ r :: post).find? (fun s => decide (s.site_no = r.site_no)) =
      some r := by
  rw [List.find?_append]
  have hnone : pre.find? (fun s => decide (s.site_no = r.site_no)) = none := by
    rw [List.find?_eq_none]
    intro s hs
    simp only [decide_eq_true_eq]
    intro heq
    rw [List.map_append] at hnd
    have hdisj := (List.nodup_append.1 hnd).2.2
    exact hdisj (List.mem_map_of_mem RawSite.site_no hs) (by simp [heq])
  rw [hnone, Option.none_or, List.find?_cons_of_pos _ (by simp)]

/-- C1 counterexample: two valid, geometrically coincident candidates are
listed as `"B"` then `"A"` in the response; `"A"` sorts first
lexicographically, yet `get_id` returns the first-listed `"B"` — the
tie-break is response order, not id order. -/
theorem claim1_lex_tie_counterexample :
    get_id (0, 0) [siteB0, siteA0] = Except.ok (mkFields siteB0) ∧
    (mkFields siteB0).station_id = "B" ∧
    validSite siteA0 = true ∧ validSite siteB0 = true ∧
    pointOf siteA0 = pointOf siteB0 ∧
    idLexLt siteA0.site_no siteB0.site_no = true := by
  refine ⟨?_, rfl, rfl, rfl, rfl, by decide⟩
  simp [get_id, ptsDict, dictInsert, nearestPoint, firstKeyAt, sqDist,
    mkFields, validSite, pointOf, longOf, latOf, keepNearerPoint,
    siteA0, siteB0]

/-- C1 amended: over any response whose valid candidates are non-empty and
carry pairwise distinct ids, `get_id` returns exactly the first-listed valid
candidate attaining the minimal planar distance to the query (so ties among
coincident candidates resolve to response order, not to the
lexicographically smallest id), and its point minimizes the distance over
all valid candidates. -/
theorem claim1_nearest_first_in_order (query : ℚ × ℚ) (sites : List RawSite)
    (hne : sites.filter validSite ≠ [])
    (hnd : ((sites.filter validSite).map RawSite.site_no).Nodup) :
    ∃ r, selectNearest query (sites.filter validSite) = some r ∧
      get_id query sites = Except.ok (mkFields r) ∧
      ∀ s ∈ sites.filter validSite,
        sqDist query (pointOf r) ≤ sqDist query (pointOf s) := by
  obtain ⟨r, hr⟩ :
      ∃ r, selectNearest query (sites.filter validSite) = some r := by
    cases hdf : sites.filter validSite with
    | nil => exact absurd hdf hne
    | cons b t => exact ⟨_, rfl⟩
  obtain ⟨pre, post, hsplit, hpre, hmin⟩ := selectNearest_split query _ r hr
  refine ⟨r, hr, ?_, hmin⟩
  have h1 : nearestPoint query (ptsDict (sites.filter validSite)) =
      some (pointOf r) := by
    rw [nearestPoint_ptsDict query _ hnd, hr]
    rfl
  have h2 : firstKeyAt (ptsDict (sites.filter validSite)) (pointOf r) =
      some r.site_no := by
    rw [ptsDict_nodup _ hnd, hsplit]
    exact firstKeyAt_of_split query pre post r hpre
  have h3 : (sites.filter validSite).find?
      (fun s => decide (s.site_no = r.site_no)) = some r := by
    rw [hsplit]
    exact find_site_of_split pre post r (hsplit ▸ hnd)
  simp only [get_id, h1, h2, h3]

/-- Witness for C1 amended: the nearer of two valid candidates is returned
even though it is listed second. -/
theorem claim1_nearest_first_in_order_witness :
    ([siteFar0, siteNear0].filter validSite ≠ [] ∧
      (([siteFar0, siteNear0].filter validSite).map RawSite.site_no).Nodup) ∧
    ∃ r, selectNearest (0, 0) ([siteFar0, siteNear0].filter validSite) =
        some r ∧
      get_id (0, 0) [siteFar0, siteNear0] = Except.ok (mkFields r) ∧
      ∀ s ∈ [siteFar0, siteNear0].filter validSite,
        sqDist (0, 0) (pointOf r) ≤ sqDist (0, 0) (pointOf s) :=
  ⟨⟨by simp [validSite, siteFar0, siteNear0],
      by simp [validSite, siteFar0, siteNear0]⟩,
    claim1_nearest_first_in_order (0, 0) [siteFar0, siteNear0]
      (by simp [validSite, siteFar0, siteNear0])
      (by simp [validSite, siteFar0, siteNear0])⟩

/-- C5: constructing a `Station` with both a station id and a coordinate
supplied, and constructing one with neither supplied, both fail with the
invalid-argument error (the `RuntimeError` raised at hydrodata.py:83). -/
theorem claim5_both_or_neither_fail :
    ∀ (i : String) (c : ℚ × ℚ),
      initDispatch (some i) (some c) = Except.error Err.invalidArgument ∧
      initDispatch none none = Except.error Err.invalidArgument := by
  intro i c
  exact ⟨rfl, rfl⟩

/-- C8: the feet-to-meters conversion maps an altitude of 100 feet to
30.48 meters, within tolerance 1e-6. -/
theorem claim8_hundred_feet :
    |ftToMeter 100 - 3048 / 100| < 1 / 1000000 := by
  norm_num [ftToMeter]

/-- C9: when the data directory is missing and `os.makedirs` raises
`OSError`, the `except OSError` handler does not print-and-continue: its
print expression references the undefined name `d` (hydrodata.py:97), so the
step raises `NameError` and construction fails. -/
theorem claim9_handler_name_error :
    dirCreationStep false false = Except.error Err.nameError ∧
    definedInHandlerScope "d" = false := by
  constructor
  · rfl
  · rfl

/-- C4 counterexample: on a bounding-box response whose only row is partial
(so zero candidates survive the filter), `get_id` fails with an unhandled
library exception, which is not the spec's `NoStationFoundError`; the source
never raises a dedicated no-station-found error. -/
theorem claim4_error_kind_counterexample :
    get_id (0, 0) [badSite0] = Except.error Err.libraryError ∧
    Err.libraryError ≠ Err.noStationFound := by
  exact ⟨rfl, by decide⟩

/-- C4 amended: whenever zero candidates survive the filter, resolving a
station by coordinate fails — with the unhandled library exception raised by
the pandas / shapely calls rather than with a dedicated
`NoStationFoundError` — and never returns a default station. -/
theorem claim4_empty_candidates_fail (query : ℚ × ℚ) (sites : List RawSite)
    (h : sites.filter validSite = []) :
    get_id query sites = Except.error Err.libraryError := by
  simp only [get_id, h]
  rfl

/-- Witness for C4 amended: the single-partial-row response filters to the
empty candidate list and `get_id` fails there. -/
theorem claim4_empty_candidates_fail_witness :
    [badSite0].filter validSite = [] ∧
    get_id (0, 0) [badSite0] = Except.error Err.libraryError :=
  ⟨by rfl, claim4_empty_candidates_fail (0, 0) [badSite0] (by rfl)⟩

/-- C7 counterexample: a station row whose source altitude is -100 feet
resolves to a negative `altitude_m` (-30.48 m); the code enforces no
non-negativity on the converted altitude. -/
theorem claim7_negative_altitude_counterexample :
    (get_coords "10254005" recNeg).altitude < 0 := by
  norm_num [get_coords, recNeg, ftToMeter]

/-- C7 amended: the altitude produced by either resolution direction is the
source altitude times 0.3048, so it is non-negative exactly when the source
altitude in feet is non-negative; no non-negativity is enforced by the
code. -/
theorem claim7_altitude_sign_follows_source :
    (∀ (i : String) (rec : IdRecord),
      0 ≤ rec.alt_va → 0 ≤ (get_coords i rec).altitude) ∧
    (∀ (query : ℚ × ℚ) (sites : List RawSite) (f : StationFields),
      (∀ s ∈ sites.filter validSite, 0 ≤ altOf s) →
      get_id query sites = Except.ok f → 0 ≤ f.altitude) := by
  constructor
  · intro i rec h
    have : (get_coords i rec).altitude = rec.alt_va * (3048 / 10000) := rfl
    rw [this]
    positivity
  · intro query sites f hall h
    obtain ⟨r, hr, hf⟩ := get_id_ok_mem query sites f h
    have : f.altitude = altOf r * (3048 / 10000) := by rw [hf]; rfl
    rw [this]
    have := hall r hr
    positivity

/-- Witness for C7 amended: both directions at concrete inputs with
non-negative source altitudes. -/
theorem claim7_altitude_sign_witness :
    (0 ≤ recPos.alt_va ∧ 0 ≤ (get_coords "01467087" recPos).altitude) ∧
    ((∀ s ∈ [siteB0].filter validSite, 0 ≤ altOf s) ∧
      get_id (0, 0) [siteB0] = Except.ok (mkFields siteB0) ∧
      0 ≤ (mkFields siteB0).altitude) := by
  have hall : ∀ s ∈ [siteB0].filter validSite, 0 ≤ altOf s := by
    intro s hs
    simp [validSite, siteB0, List.filter] at hs
    simp [hs, altOf, siteB0]
  have hid : get_id (0, 0) [siteB0] = Except.ok (mkFields siteB0) := by
    simp [get_id, ptsDict, dictInsert, nearestPoint, firstKeyAt, sqDist,
      mkFields, validSite, pointOf, longOf, latOf, siteB0]
  refine ⟨⟨by norm_num [recPos], ?_⟩, hall, hid, ?_⟩
  · exact claim7_altitude_sign_follows_source.1 "01467087" recPos (by norm_num [recPos])
  · exact claim7_altitude_sign_follows_source.2 (0, 0) [siteB0] (mkFields siteB0) hall hid

/-- C6: on the cache-miss path, when the write succeeds the geometry is
persisted (the cache holds the downloaded basin) before the call returns it;
when the write fails the whole call fails with the persistence error, even
though the basin geometry had already been fetched. -/
theorem claim6_persist_before_return (env : NldiEnv) :
    (env.writeOk = true →
      (get_watershed env none).2.1 = some env.basin ∧
      ∃ r, (get_watershed env none).1 = Except.ok r ∧ r.geometry = env.basin) ∧
    (env.writeOk = false →
      (get_watershed env none).1 = Except.error Err.persistenceError ∧
      RemoteCall.fetchBasin ∈ (get_watershed env none).2.2) := by
  constructor
  · intro hw
    simp [get_watershed, hw]
  · intro hw
    simp [get_watershed, hw]

/-- Witness for C6: a successful write persists the basin; a failing write
fails the call after the basin fetch. -/
theorem claim6_persist_before_return_witness :
    (envW.writeOk = true ∧
      (get_watershed envW none).2.1 = some envW.basin ∧
      ∃ r, (get_watershed envW none).1 = Except.ok r ∧ r.geometry = envW.basin) ∧
    (envF.writeOk = false ∧
      (get_watershed envF none).1 = Except.error Err.persistenceError ∧
      RemoteCall.fetchBasin ∈ (get_watershed envF none).2.2) :=
  ⟨⟨rfl, (claim6_persist_before_return envW).1 rfl⟩,
    ⟨rfl, (claim6_persist_before_return envF).2 rfl⟩⟩

/-- C10: watershed resolution always performs the comid lookup, the
tributary trace, the main-channel trace and the flowline fetch, in that
order, regardless of the cache; the basin download happens exactly when the
geometry file does not exist. -/
theorem claim10_prefetch_always_runs (env : NldiEnv) (cache : Option String) :
    ((get_watershed env cache).2.2).take 4 =
      [RemoteCall.nldiInit, RemoteCall.traceTributaries, RemoteCall.traceMain,
        RemoteCall.fetchCatchments] ∧
    (RemoteCall.fetchBasin ∈ (get_watershed env cache).2.2 ↔ cache = none) := by
  cases cache with
  | none =>
      cases hw : env.writeOk <;> simp [get_watershed, hw]
  | some g =>
      simp [get_watershed]

/-- C2: when a first watershed resolution succeeds, a second resolution
started from the resulting cache state succeeds, returns bit-identical
`geometry`, and performs no basin download (the geometry file, whose
presence is the sole cache-hit signal, is read instead). -/
theorem claim2_cache_idempotent (env : NldiEnv) (c0 c1 : Option String)
    (r1 : WatershedResult) (t1 : List RemoteCall)
    (h1 : get_watershed env c0 = (Except.ok r1, c1, t1)) :
    ∃ r2 c2 t2, get_watershed env c1 = (Except.ok r2, c2, t2) ∧
      r2.geometry = r1.geometry ∧ RemoteCall.fetchBasin ∉ t2 := by
  cases c0 with
  | some g =>
      simp only [get_watershed, Prod.mk.injEq, Except.ok.injEq] at h1
      obtain ⟨ha, hb, hc⟩ := h1
      subst hb
      refine ⟨_, _, _, rfl, ?_, ?_⟩
      · rw [← ha]
      · subst hc
        decide
  | none =>
      cases hw : env.writeOk with
      | false =>
          simp only [get_watershed, hw, Bool.false_eq_true, if_false,
            Prod.mk.injEq] at h1
          exact absurd h1.1 (by simp)
      | true =>
          simp only [get_watershed, hw, if_true, Prod.mk.injEq,
            Except.ok.injEq] at h1
          obtain ⟨ha, hb, hc⟩ := h1
          subst hb
          refine ⟨_, _, _, rfl, ?_, ?_⟩
          · rw [← ha]
          · decide

/-- Witness for C2: a cache-miss resolution against `envW` followed by a
resolution from the cache state it leaves behind. -/
theorem claim2_cache_idempotent_witness :
    get_watershed envW none = (Except.ok resW, some "polygon bytes", fullCalls) ∧
    ∃ r2 c2 t2,
      get_watershed envW (some "polygon bytes") = (Except.ok r2, c2, t2) ∧
      r2.geometry = resW.geometry ∧ RemoteCall.fetchBasin ∉ t2 := by
  have h1 : get_watershed envW none =
      (Except.ok resW, some "polygon bytes", fullCalls) := by
    simp [get_watershed, envW, get_nhdplus_byid, resW, fullCalls]
    norm_num
  exact ⟨h1, claim2_cache_idempotent envW none (some "polygon bytes") resW
    fullCalls h1⟩

/-- C3: the derived drainage area equals the sum of per-reach sub-catchment
areas over the set of distinct tributary ids, and appending a duplicate
tributary id leaves the area unchanged. -/
theorem claim3_area_set_sum (env : NldiEnv) (g x : String)
    (hx : x ∈ env.tributaries) :
    ∃ r r', (get_watershed env (some g)).1 = Except.ok r ∧
      (get_watershed { env with tributaries := env.tributaries ++ [x] }
          (some g)).1 = Except.ok r' ∧
      r.drainage_area = (env.tributaries.dedup.map env.areas).sum ∧
      r'.drainage_area = r.drainage_area := by
  have hcomp : (Prod.snd ∘ fun i => (i, env.areas i)) = env.areas := rfl
  refine ⟨_, _, rfl, rfl, ?_, ?_⟩
  · simp [get_nhdplus_byid, List.map_map, hcomp]
  · show ((get_nhdplus_byid env.areas (env.tributaries ++ [x])).map
        Prod.snd).sum =
      ((get_nhdplus_byid env.areas env.tributaries).map Prod.snd).sum
    simp only [get_nhdplus_byid, List.map_map, hcomp]
    have p1 : (env.tributaries ++ [x]).dedup.Perm env.tributaries.dedup := by
      have h2 : (env.tributaries ++ [x]).Perm (x :: env.tributaries) :=
        List.perm_append_singleton x env.tributaries
      have h3 := h2.dedup
      rw [List.dedup_cons_of_mem hx] at h3
      exact h3
    exact (p1.map env.areas).sum_eq

/-- Witness for C3: duplicating tributary id `"a"` of `envW` leaves the
drainage area unchanged. -/
theorem claim3_area_set_sum_witness :
    "a" ∈ envW.tributaries ∧
    ∃ r r', (get_watershed envW (some "cached")).1 = Except.ok r ∧
      (get_watershed { envW with tributaries := envW.tributaries ++ ["a"] }
          (some "cached")).1 = Except.ok r' ∧
      r.drainage_area = (envW.tributaries.dedup.map envW.areas).sum ∧
      r'.drainage_area = r.drainage_area :=
  ⟨by simp [envW], claim3_area_set_sum envW "cached" "a" (by simp [envW])⟩

end Hydrodata
